import Mathlib

/-!
Shallow embedding of `src/app.py` (Summareporto): a Streamlit app that
extracts text from uploaded PDF files and sends it to the Gemini API for a
two-part analysis.

Modelling conventions:
* Raw uploaded bytes are a `List Nat`.
* The external PDF library (PyPDF2) is a parameter `PdfLib`: parsing either
  raises (modelled as `Except.error` carrying the exception message as a
  string) or yields the list of pages, where each page in turn either raises
  during text extraction or yields that page text.
* The remote Gemini call (model construction, `generate_content` and the
  `response.text` access, i.e. the whole `try` body after prompt formatting)
  is a parameter `oracle : String → Except String String` mapping the prompt
  to the response text or to the raised exception message.
* UI side effects are returned as data: the `st.error` message displayed
  during extraction (an `Option String`), and the outcome branch taken by the
  per-file loop together with the list of texts passed to the analysis call
  and the list of prompts actually sent over the network.
* Python string truthiness (`if not GOOGLE_API_KEY`, `if pdf_text.strip()`)
  is modelled as the test against the empty string.
-/

namespace Summareporto

/-- One page of a parsed PDF: `page.extract_text()` either yields the page
text or raises with some message. -/
def Page : Type := Except String String

/-- The external PDF-parsing capability: from raw bytes, either the list of
pages, or the message of the exception raised while reading the stream. -/
structure PdfLib where
  parse : List Nat → Except String (List (Except String String))

/-- Loop body of `extract_text_from_pdf`: `text += page.extract_text()` over
the pages, stopping at the first page whose extraction raises; the second
component is the `st.error` message displayed when a page raised. -/
def extractPages : List (Except String String) → String → String × Option String
  | [], acc => (acc, none)
  | Except.ok t :: rest, acc => extractPages rest (acc ++ t)
  | Except.error e :: _, acc => (acc, some ("Error reading PDF file: " ++ e))

/-- Embedding of `extract_text_from_pdf` (src/app.py lines 78-97): starts from
the empty string, reads the PDF and concatenates page texts inside a
catch-all `try`; on any exception it displays `st.error` with the cause and
falls through to `return text`. The first component is the returned string,
the second is the displayed error message, if any. -/
def extract_text_from_pdf (lib : PdfLib) (uploaded_file : List Nat) :
    String × Option String :=
  match lib.parse uploaded_file with
  | Except.error e => ("", some ("Error reading PDF file: " ++ e))
  | Except.ok pages => extractPages pages ""

/-- The simulated response returned by `analyze_pdf_with_gemini` when no API
key is configured (src/app.py lines 40-52). -/
def placeholderAnalysis : String :=
  "\n        **Executive Summary:**\n        This is a simulated executive summary. The content of the PDF would be concisely summarized here, highlighting the key findings, main arguments, and overall purpose of the document. This section is designed for quick consumption by busy stakeholders.\n\n        ---\n\n        **In-depth Analysis:**\n        This is a simulated in-depth analysis. In a real scenario, this section would provide a detailed breakdown of the document\x27s content. It would explore the primary topics, methodologies, and conclusions presented in the PDF. Key points would be elaborated upon, and a critical perspective might be offered on the document\x27s strengths, weaknesses, and implications. For example, it could include:\n        - **Main Arguments:** A bulleted list or detailed paragraphs on the core arguments.\n        - **Evidence and Data:** Analysis of the data or evidence used to support the claims.\n        - **Potential Biases:** Identification of any potential biases or limitations.\n        - **Conclusion and Recommendations:** A deeper look at the document\x27s conclusions and any actionable recommendations.\n        "

/-- Text of the prompt f-string before the `{pdf_text}` interpolation point
(src/app.py lines 56-69). -/
def promptHead : String :=
  "\n        Based on the following text extracted from a PDF document, please provide a comprehensive analysis. Structure your response into two distinct sections:\n\n        1.  **Executive Summary:** A concise, high-level overview of the document\x27s key points, purpose, and conclusions. This should be easy to understand for someone who has not read the document.\n\n        2.  **In-depth Analysis:** A detailed breakdown of the document. This should include:\n            * Identification of the main arguments or topics.\n            * An evaluation of the evidence or data presented.\n            * A discussion of the document\x27s implications, strengths, and potential weaknesses.\n            * Any other critical insights you can derive from the text.\n\n        Here is the document text:\n        ---\n        "

/-- Text of the prompt f-string after the `{pdf_text}` interpolation point
(src/app.py lines 69-71). -/
def promptTail : String := "\n        ---\n        "

/-- The prompt produced by the f-string at src/app.py lines 56-71 for a given
extracted text. -/
def buildPrompt (pdf_text : String) : String := promptHead ++ pdf_text ++ promptTail

/-- Message head of the string returned from the `except` branch of
`analyze_pdf_with_gemini` (src/app.py line 75). -/
def errMsgHead : String := "An error occurred while calling the Gemini API: "

/-- Embedding of `analyze_pdf_with_gemini` (src/app.py lines 28-75). The first
component is the returned string; the second is the list of prompts sent to
the remote model (empty in offline mode, where no network request is made). -/
def analyze_pdf_with_gemini (apiKey : String)
    (oracle : String → Except String String) (pdf_text : String) :
    String × List String :=
  if apiKey = "" then
    (placeholderAnalysis, [])
  else
    match oracle (buildPrompt pdf_text) with
    | Except.ok r => (r, [buildPrompt pdf_text])
    | Except.error e => (errMsgHead ++ e, [buildPrompt pdf_text])

/-- Embedding of Python `str.strip()` as used in `if pdf_text.strip():`
(src/app.py line 147): surrounding whitespace removed from both ends. -/
def pyStrip (s : String) : String :=
  String.mk (((s.data.dropWhile Char.isWhitespace).reverse.dropWhile
    Char.isWhitespace).reverse)

/-- Branch taken by the per-file loop for one document: either the analysis
string is rendered via `st.markdown`, or the warning that no text could be
extracted is shown (src/app.py lines 147-154). -/
inductive Outcome where
  | analyzed (analysis : String)
  | emptyWarning
deriving DecidableEq

/-- Everything observable about processing one uploaded document: the
`st.error` message displayed during extraction, if any; the outcome branch;
the texts passed to `analyze_pdf_with_gemini`; and the prompts sent over the
network. -/
structure ProcessResult where
  extractionError : Option String
  outcome : Outcome
  analyzeCalls : List String
  networkPrompts : List String
deriving DecidableEq

/-- Embedding of the body of the `uploaded_files` loop for one document
(src/app.py lines 139-154): extract the text, then analyze it when its
stripped form is non-empty, else show the could-not-extract warning. -/
def processDocument (apiKey : String) (lib : PdfLib)
    (oracle : String → Except String String) (uploaded_file : List Nat) :
    ProcessResult :=
  let ex := extract_text_from_pdf lib uploaded_file
  if pyStrip ex.1 ≠ "" then
    let a := analyze_pdf_with_gemini apiKey oracle ex.1
    { extractionError := ex.2
      outcome := Outcome.analyzed a.1
      analyzeCalls := [ex.1]
      networkPrompts := a.2 }
  else
    { extractionError := ex.2
      outcome := Outcome.emptyWarning
      analyzeCalls := []
      networkPrompts := [] }

/-- Sources the credential can come from in the process the script runs in:
the Streamlit secrets store lookup `st.secrets["GOOGLE_API_KEY"]` (`none`
models the `KeyError`/`AttributeError` cases) and the process environment
variable, which exists in the process whether or not the code reads it. -/
structure Config where
  secrets : Option String
  env : Option String

/-- Embedding of the module-level credential resolution (src/app.py lines
12-18): try the secrets store; on `KeyError` or `AttributeError` fall back to
the compiled-in `""`. The environment does not appear on the right-hand side
because the code never reads it. -/
def resolveApiKey (c : Config) : String :=
  match c.secrets with
  | some k => k
  | none => ""

/-- Modelled from the spec: the layered credential resolution the
specification describes, consulting the secrets store, then the environment,
then a compiled-in default of absent. No function in src/app.py consults the
environment; this definition exists only to be compared with
`resolveApiKey`. -/
def resolveApiKeySpec (c : Config) : String :=
  match c.secrets with
  | some k => k
  | none =>
    match c.env with
    | some k => k
    | none => ""

/-- Concatenation of a list of page texts in order, with no separator. -/
def joinTexts : List String → String
  | [] => ""
  | t :: rest => t ++ joinTexts rest

/-- The texts of the pages before the first page whose extraction raises
(all pages, when none raises). -/
def okPageTexts : List (Except String String) → List String
  | [] => []
  | Except.ok t :: rest => t :: okPageTexts rest
  | Except.error _ :: _ => []

/-- Reference description of the string `extract_text_from_pdf` returns:
empty when parsing raised, otherwise the concatenation of the page texts
successfully extracted before the first page-level failure. -/
def textUpToFailure : Except String (List (Except String String)) → String
  | Except.error _ => ""
  | Except.ok pages => joinTexts (okPageTexts pages)

/-- A PDF library for which parsing any byte sequence raises. -/
def badLib : PdfLib := ⟨fun _ => Except.error "bad header"⟩

/-- A PDF library for which every byte sequence parses to a single page whose
extracted text is empty (an image-only page). -/
def blankLib : PdfLib := ⟨fun _ => Except.ok [Except.ok ""]⟩

/-- A PDF library for which every byte sequence parses to two pages bearing
the texts of a small two-page document. -/
def helloLib : PdfLib :=
  ⟨fun _ => Except.ok [Except.ok "Hello ", Except.ok "World"]⟩

/-- A remote model that always raises a generic transport failure. -/
def failOracle : String → Except String String :=
  fun _ => Except.error "boom"

/-- A remote model that always raises a quota failure. -/
def quotaOracle : String → Except String String :=
  fun _ => Except.error "quota exceeded"

/-- A remote model that answers every prompt successfully with exactly the
string the `except` branch would produce for the failure message "boom". -/
def echoErrOracle : String → Except String String :=
  fun _ => Except.ok (errMsgHead ++ "boom")

-- Helper lemmas

theorem extractPages_ok_texts (texts : List String) (acc : String) :
    extractPages (texts.map Except.ok) acc = (acc ++ joinTexts texts, none) := by
  induction texts generalizing acc with
  | nil => simp [extractPages, joinTexts]
  | cons t rest ih =>
    simp [extractPages, joinTexts, ih, String.append_assoc]

theorem extractPages_fst (pages : List (Except String String)) (acc : String) :
    (extractPages pages acc).1 = acc ++ joinTexts (okPageTexts pages) := by
  induction pages generalizing acc with
  | nil => simp [extractPages, okPageTexts, joinTexts]
  | cons p rest ih =>
    cases p with
    | ok t => simp [extractPages, okPageTexts, joinTexts, ih, String.append_assoc]
    | error e => simp [extractPages, okPageTexts, joinTexts]

theorem extractionErrMsg_ne_empty (e : String) :
    "Error reading PDF file: " ++ e ≠ "" := by
  intro h
  have h2 := congrArg String.length h
  rw [String.length_append] at h2
  have h3 : ("Error reading PDF file: " : String).length = 24 := rfl
  have h4 : ("" : String).length = 0 := rfl
  rw [h3, h4] at h2
  omega

-- Claim theorems

/-- Claim C1: for every byte sequence the PDF library cannot parse,
`extract_text_from_pdf` signals the extraction error — the displayed message
carries the underlying cause description `e` — and the string it returns is
the empty string, never partial page text returned silently: the error signal
always accompanies the return. -/
theorem C1_unparseable_signals_error (lib : PdfLib) (b : List Nat) (e : String)
    (h : lib.parse b = Except.error e) :
    extract_text_from_pdf lib b = ("", some ("Error reading PDF file: " ++ e)) := by
  simp [extract_text_from_pdf, h]

/-- Witness for C1 at a concrete unparseable input. -/
theorem C1_unparseable_signals_error_witness :
    badLib.parse [0] = Except.error "bad header" ∧
      extract_text_from_pdf badLib [0] =
        ("", some ("Error reading PDF file: " ++ "bad header")) :=
  ⟨rfl, C1_unparseable_signals_error badLib [0] "bad header" rfl⟩

/-- Counterexample to claim C2: for bytes that are not a valid PDF the
extraction does signal an error, but the per-document outcome the pipeline
takes is the `emptyWarning` branch — the very same outcome a blank,
image-only PDF produces — not a distinct extraction-failed outcome. -/
theorem C2_outcome_not_distinct_counterexample :
    extract_text_from_pdf badLib [0] =
        ("", some ("Error reading PDF file: " ++ "bad header")) ∧
      (processDocument "k" badLib failOracle [0]).outcome = Outcome.emptyWarning ∧
      (processDocument "k" blankLib failOracle [1]).outcome = Outcome.emptyWarning ∧
      (processDocument "k" badLib failOracle [0]).outcome =
        (processDocument "k" blankLib failOracle [1]).outcome := by
  refine ⟨rfl, rfl, rfl, rfl⟩

/-- Claim C2 as amended: for every uploaded document whose bytes fail to
parse, the pipeline displays an extraction error message with a non-empty
reason while extracting, but its per-document outcome is the same
empty-content warning branch used for textless PDFs; no outcome distinct from
the empty-content one exists, and the analysis step is not reached. -/
theorem C2_extraction_failure_amended (key : String) (lib : PdfLib)
    (oracle : String → Except String String) (b : List Nat) (e : String)
    (h : lib.parse b = Except.error e) :
    (processDocument key lib oracle b).extractionError =
        some ("Error reading PDF file: " ++ e) ∧
      "Error reading PDF file: " ++ e ≠ "" ∧
      (processDocument key lib oracle b).outcome = Outcome.emptyWarning := by
  have hex : extract_text_from_pdf lib b =
      ("", some ("Error reading PDF file: " ++ e)) := by
    simp [extract_text_from_pdf, h]
  have hstrip : pyStrip "" = "" := rfl
  refine ⟨?_, extractionErrMsg_ne_empty e, ?_⟩ <;>
    simp [processDocument, hex, hstrip]

/-- Witness for the amended C2 at a concrete unparseable input. -/
theorem C2_extraction_failure_amended_witness :
    (processDocument "k" badLib quotaOracle [0]).extractionError =
        some ("Error reading PDF file: " ++ "bad header") ∧
      "Error reading PDF file: " ++ "bad header" ≠ "" ∧
      (processDocument "k" badLib quotaOracle [0]).outcome = Outcome.emptyWarning :=
  C2_extraction_failure_amended "k" badLib quotaOracle [0] "bad header" rfl

/-- Claim C3: when the configured credential is absent (the key is the empty
string, which is falsy), `analyze_pdf_with_gemini` returns the fixed
placeholder analysis for every prompt text and every remote model — the
result is a constant — and the list of network requests made is empty. -/
theorem C3_offline_placeholder (key : String)
    (oracle : String → Except String String) (t : String) (h : key = "") :
    analyze_pdf_with_gemini key oracle t = (placeholderAnalysis, []) := by
  subst h
  simp [analyze_pdf_with_gemini]

/-- Witness for C3: with no key, a failing network double is never consulted
and the placeholder comes back. -/
theorem C3_offline_placeholder_witness :
    analyze_pdf_with_gemini "" failOracle "hello" = (placeholderAnalysis, []) :=
  C3_offline_placeholder "" failOracle "hello" rfl

/-- Claim C4: for every document whose extracted text is empty after
stripping surrounding whitespace, the pipeline takes the empty-content
warning branch and neither invokes the analysis call (so no prompt is built
from the text) nor sends any network request. -/
theorem C4_empty_content_no_analysis (key : String) (lib : PdfLib)
    (oracle : String → Except String String) (b : List Nat)
    (h : pyStrip (extract_text_from_pdf lib b).1 = "") :
    processDocument key lib oracle b =
      ⟨(extract_text_from_pdf lib b).2, Outcome.emptyWarning, [], []⟩ := by
  simp [processDocument, h]

/-- Witness for C4 on a parsed PDF whose single page has empty text. -/
theorem C4_empty_content_no_analysis_witness :
    pyStrip (extract_text_from_pdf blankLib [1]).1 = "" ∧
      processDocument "k" blankLib quotaOracle [1] =
        ⟨(extract_text_from_pdf blankLib [1]).2, Outcome.emptyWarning, [], []⟩ :=
  ⟨rfl, C4_empty_content_no_analysis "k" blankLib quotaOracle [1] rfl⟩

/-- Claim C5: when the credential is present and the remote call raises with
message `e`, `analyze_pdf_with_gemini` returns normally — the catch-all
`except` converts the failure into the error string carrying the underlying
cause description `e` — and exactly one network request was made, so the call
is never retried. -/
theorem C5_remote_failure_message (key t e : String)
    (oracle : String → Except String String) (hk : key ≠ "")
    (ho : oracle (buildPrompt t) = Except.error e) :
    analyze_pdf_with_gemini key oracle t = (errMsgHead ++ e, [buildPrompt t]) ∧
      (analyze_pdf_with_gemini key oracle t).2.length = 1 := by
  have h1 : analyze_pdf_with_gemini key oracle t =
      (errMsgHead ++ e, [buildPrompt t]) := by
    unfold analyze_pdf_with_gemini
    rw [if_neg hk, ho]
  exact ⟨h1, by rw [h1]; rfl⟩

/-- Witness for C5 with a key configured and a quota failure. -/
theorem C5_remote_failure_message_witness :
    analyze_pdf_with_gemini "k" quotaOracle "text" =
        (errMsgHead ++ "quota exceeded", [buildPrompt "text"]) ∧
      (analyze_pdf_with_gemini "k" quotaOracle "text").2.length = 1 :=
  C5_remote_failure_message "k" "text" "quota exceeded" quotaOracle
    (by decide) rfl

/-- Claim C6: prompt building is deterministic and total. In online mode the
prompt actually sent is a function of the extracted text alone: for equal
input texts (any string, including the empty string) and arbitrary remote
models the prompt sent is the same, and equals the fixed template
instantiated with the text. -/
theorem C6_prompt_deterministic (key : String)
    (o₁ o₂ : String → Except String String) (t₁ t₂ : String)
    (hk : key ≠ "") (ht : t₁ = t₂) :
    (analyze_pdf_with_gemini key o₁ t₁).2 = (analyze_pdf_with_gemini key o₂ t₂).2 ∧
      (analyze_pdf_with_gemini key o₁ t₁).2 = [promptHead ++ t₁ ++ promptTail] := by
  subst ht
  have h1 : ∀ o : String → Except String String,
      (analyze_pdf_with_gemini key o t₁).2 = [buildPrompt t₁] := by
    intro o
    unfold analyze_pdf_with_gemini
    rw [if_neg hk]
    cases ho : o (buildPrompt t₁) <;> simp
  exact ⟨(h1 o₁).trans (h1 o₂).symm, h1 o₁⟩

/-- Witness for C6 at the empty input text. -/
theorem C6_prompt_deterministic_witness :
    (analyze_pdf_with_gemini "k" failOracle "").2 =
        (analyze_pdf_with_gemini "k" quotaOracle "").2 ∧
      (analyze_pdf_with_gemini "k" failOracle "").2 =
        [promptHead ++ "" ++ promptTail] :=
  C6_prompt_deterministic "k" failOracle quotaOracle "" "" (by decide) rfl

/-- Claim C7: for every byte sequence that parses to pages each of whose text
extraction succeeds (a valid, non-encrypted PDF) and which bears text (the
concatenation is non-empty), `extract_text_from_pdf` returns exactly the
concatenation of the page texts in page order, with no separator inserted,
non-empty, and displays no error. -/
theorem C7_concat_pages (lib : PdfLib) (b : List Nat) (texts : List String)
    (hp : lib.parse b = Except.ok (texts.map Except.ok))
    (hne : joinTexts texts ≠ "") :
    extract_text_from_pdf lib b = (joinTexts texts, none) ∧
      joinTexts texts ≠ "" := by
  refine ⟨?_, hne⟩
  simp [extract_text_from_pdf, hp, extractPages_ok_texts]

/-- Witness for C7 on a concrete two-page text-bearing document. -/
theorem C7_concat_pages_witness :
    extract_text_from_pdf helloLib [7] =
        (joinTexts ["Hello ", "World"], none) ∧
      joinTexts ["Hello ", "World"] ≠ "" :=
  C7_concat_pages helloLib [7] ["Hello ", "World"] rfl (by decide)

/-- Counterexample to claim C8: in a process where the secrets store has no
key but the environment variable holds one, the code resolves the credential
to the compiled-in empty default, while the layered resolution the claim
describes (secrets, then environment, then absent) would resolve it to the
environment value — the environment layer does not exist in the code. -/
theorem C8_layered_resolution_counterexample :
    resolveApiKey ⟨none, some "ENVKEY"⟩ = "" ∧
      resolveApiKeySpec ⟨none, some "ENVKEY"⟩ = "ENVKEY" ∧
      resolveApiKey ⟨none, some "ENVKEY"⟩ ≠
        resolveApiKeySpec ⟨none, some "ENVKEY"⟩ := by
  refine ⟨rfl, rfl, by decide⟩

/-- Claim C8 as amended: the credential is resolved once at process start
from the secrets store alone, falling back to the compiled-in default of the
empty (absent) key; the process environment is never consulted, so the
resolved key — and with it the offline/online mode — is independent of the
environment. -/
theorem C8_secrets_only_resolution (c : Config) (k : String) :
    (c.secrets = some k → resolveApiKey c = k) ∧
      (c.secrets = none → resolveApiKey c = "") ∧
      (∀ e₁ e₂ : Option String,
        resolveApiKey ⟨c.secrets, e₁⟩ = resolveApiKey ⟨c.secrets, e₂⟩) := by
  refine ⟨fun h => ?_, fun h => ?_, fun e₁ e₂ => ?_⟩
  · simp [resolveApiKey, h]
  · simp [resolveApiKey, h]
  · cases c.secrets <;> simp [resolveApiKey]

/-- Witness for the amended C8 at concrete configurations. -/
theorem C8_secrets_only_resolution_witness :
    resolveApiKey ⟨some "s", none⟩ = "s" ∧
      resolveApiKey ⟨none, some "x"⟩ = "" ∧
      resolveApiKey ⟨none, some "x"⟩ = resolveApiKey ⟨none, none⟩ :=
  ⟨(C8_secrets_only_resolution ⟨some "s", none⟩ "s").1 rfl,
    (C8_secrets_only_resolution ⟨none, some "x"⟩ "s").2.1 rfl,
    (C8_secrets_only_resolution ⟨none, some "x"⟩ "s").2.2 (some "x") none⟩

/-- Claim C9: `extract_text_from_pdf` is total at its boundary — every
library exception path is converted into a returned value — and the string it
returns is always the concatenation of the page texts successfully extracted
before the failure: empty when parsing itself raised, all pages when nothing
raised. -/
theorem C9_extraction_total_upto_failure (lib : PdfLib) (b : List Nat) :
    (extract_text_from_pdf lib b).1 = textUpToFailure (lib.parse b) := by
  cases h : lib.parse b with
  | error e => simp [extract_text_from_pdf, textUpToFailure, h]
  | ok pages => simp [extract_text_from_pdf, textUpToFailure, h, extractPages_fst]

/-- Claim C10: `analyze_pdf_with_gemini` always returns a plain string. On a
remote failure with message `e` the returned value is the fixed error head
followed by `e`, and it carries no tag: a remote model that successfully
answers with that very text produces a result the caller cannot distinguish
from the failure case. -/
theorem C10_error_untagged (key t e : String)
    (oracle : String → Except String String) (hk : key ≠ "")
    (ho : oracle (buildPrompt t) = Except.error e) :
    (analyze_pdf_with_gemini key oracle t).1 = errMsgHead ++ e ∧
      ∀ o₂ : String → Except String String,
        o₂ (buildPrompt t) = Except.ok (errMsgHead ++ e) →
        (analyze_pdf_with_gemini key o₂ t).1 =
          (analyze_pdf_with_gemini key oracle t).1 := by
  have h1 : (analyze_pdf_with_gemini key oracle t).1 = errMsgHead ++ e := by
    unfold analyze_pdf_with_gemini
    rw [if_neg hk, ho]
  refine ⟨h1, fun o₂ h₂ => ?_⟩
  have h3 : (analyze_pdf_with_gemini key o₂ t).1 = errMsgHead ++ e := by
    unfold analyze_pdf_with_gemini
    rw [if_neg hk, h₂]
  rw [h1, h3]

/-- Witness for C10: a failing model and a model answering with the failure
text yield identical results. -/
theorem C10_error_untagged_witness :
    (analyze_pdf_with_gemini "k" failOracle "doc").1 = errMsgHead ++ "boom" ∧
      (analyze_pdf_with_gemini "k" echoErrOracle "doc").1 =
        (analyze_pdf_with_gemini "k" failOracle "doc").1 := by
  have h := C10_error_untagged "k" "doc" "boom" failOracle (by decide) rfl
  exact ⟨h.1, h.2 echoErrOracle rfl⟩

end Summareporto
